import Mathlib

/-!
Verification of the m006 server-mentor chat gateway.

Shallow embedding of the streaming chat pipeline:
* `services/storage.ts` — file-per-conversation store (modelled as a map from
  `(user_id, session_id)` to `Conversation`) and the retention sweep
  `cleanupOldConversations` (modelled over a directory-listing structure).
* `services/openai.ts` — `streamChatCompletion`, the upstream streaming client
  with its 429/network retry loop and SSE line processing.
* `services/chat.ts` — `ChatService.sendMessageStream`, the orchestrator,
  modelled as a function from an environment (billing outcome, dev-mode flag,
  upstream event list, throw flag) to an interleaved trace of yielded events
  and performed side effects.
* `routes/chat.ts` — request validation of the `/send` and `/stream` handlers.

Timestamps are explicit `Int` parameters (`Date.now()` values); JSON wire
payloads of the upstream SSE stream are abstracted to their parsed shape
(`SSELine`), exactly mirroring the per-line dispatch of the source.
-/

namespace M006

-- ============================================
-- Data model (services/openai.ts, services/storage.ts)
-- ============================================

/-- `OpenAIUsage` (services/openai.ts): token usage counters; the optional
detail sub-objects are flattened to their single numeric field. -/
structure OpenAIUsage where
  input_tokens : Nat
  output_tokens : Nat
  cached_tokens : Option Nat
  reasoning_tokens : Option Nat
deriving DecidableEq, Repr

/-- Message role (storage.ts `ConversationMessage.role`). -/
inductive Role
  | user
  | assistant
  | system
deriving DecidableEq, Repr

/-- `MessageAttachment` (services/storage.ts). -/
structure MessageAttachment where
  kind : String
  filename : String
  dataUrl : Option String
deriving DecidableEq, Repr

/-- `ConversationMessage` (services/storage.ts).  `responseId` is the optional
upstream-provider response identifier of the data model (spec section 3); the
copy of `addMessage` present under src never sets it (see `addMessageR`). -/
structure ConversationMessage where
  role : Role
  content : String
  timestamp : Int
  attachments : Option (List MessageAttachment)
  responseId : Option String
deriving DecidableEq, Repr

/-- `Conversation` (services/storage.ts). -/
structure Conversation where
  session_id : String
  user_id : String
  title : String
  messages : List ConversationMessage
  created_at : Int
  updated_at : Int
deriving DecidableEq, Repr

/-- The conversation store: one JSON file per `(user_id, session_id)`,
modelled as a finite map. -/
abbrev Store := (String × String) → Option Conversation

/-- Writing one conversation file (`saveConversation` / `fs.writeFile`). -/
def Store.set (s : Store) (k : String × String) (c : Conversation) : Store :=
  fun k2 => if k2 = k then some c else s k2

/-- Default title given by `createConversation` (storage.ts line 97). -/
def defaultTitle : String := "Новая беседа"

/-- `StorageService.createConversation` (storage.ts lines 90-108): fresh
conversation with the default title and no messages. -/
def createConversation (userId sessionId : String) (now : Int) : Conversation :=
  { session_id := sessionId
    user_id := userId
    title := defaultTitle
    messages := []
    created_at := now
    updated_at := now }

/-- Title derivation from the first user message (storage.ts line 163):
`content.substring(0, 80) + (content.length > 80 ? '...' : '')`. -/
def truncTitle (content : String) : String :=
  String.mk (content.toList.take 80) ++ (if content.toList.length > 80 then "..." else "")

/-- `StorageService.getConversation` (storage.ts lines 113-122): read the file,
`null` when absent. -/
def getConversation (store : Store) (userId sessionId : String) : Option Conversation :=
  store (userId, sessionId)

/-- `StorageService.addMessage` (storage.ts lines 139-167): load or lazily
create the conversation, push the message, update the title from the first
user message while it is still the default, save (updating `updated_at`). -/
def addMessage (store : Store) (userId sessionId : String) (role : Role)
    (content : String) (attachments : Option (List MessageAttachment)) (now : Int) : Store :=
  let conversation :=
    match store (userId, sessionId) with
    | some c => c
    | none => createConversation userId sessionId now
  let msg : ConversationMessage :=
    { role := role, content := content, timestamp := now
      attachments := attachments, responseId := none }
  let c2 := { conversation with messages := conversation.messages ++ [msg] }
  let c3 :=
    if role = Role.user ∧ c2.title = defaultTitle then
      { c2 with title := truncTitle content }
    else c2
  Store.set store (userId, sessionId) { c3 with updated_at := now }

/-- Modelled from the spec: the resume-by-identifier variant of append-message.
Missing from src — `services/chat.ts` line 225 calls `addMessage` with a sixth
`openaiResponseId` argument that the copy of storage.ts under src does not
declare (spec section 9 notes the source holds two divergent variants and the
resume-by-identifier one is the intended behavior).  Identical to `addMessage`
except that the stored message carries the upstream response identifier. -/
def addMessageR (store : Store) (userId sessionId : String) (role : Role)
    (content : String) (attachments : Option (List MessageAttachment))
    (responseId : Option String) (now : Int) : Store :=
  let conversation :=
    match store (userId, sessionId) with
    | some c => c
    | none => createConversation userId sessionId now
  let msg : ConversationMessage :=
    { role := role, content := content, timestamp := now
      attachments := attachments, responseId := responseId }
  let c2 := { conversation with messages := conversation.messages ++ [msg] }
  let c3 :=
    if role = Role.user ∧ c2.title = defaultTitle then
      { c2 with title := truncTitle content }
    else c2
  Store.set store (userId, sessionId) { c3 with updated_at := now }

/-- Modelled from the spec: `storageService.getLastResponseId` — called at
`services/chat.ts` line 153 but absent from the copy of storage.ts under src.
Spec section 4.1 step 6: "Determine whether the store holds an upstream
response identifier from the prior assistant turn" — the identifier stored
with the last assistant message, when any. -/
def getLastResponseId (store : Store) (userId sessionId : String) : Option String :=
  match store (userId, sessionId) with
  | none => none
  | some c =>
    ((c.messages.filter (fun m => m.role == Role.assistant)).getLast?).bind
      (fun m => m.responseId)

-- ============================================
-- Retention sweep (storage.ts cleanupOldConversations, lines 258-302)
-- ============================================

/-- The part of a stored conversation file the sweep reads. -/
structure StoredConv where
  created_at : Int
  updated_at : Option Int
deriving DecidableEq, Repr

/-- One directory entry of a user directory: file name plus its parse result
(`none` = corrupted/unparseable, skipped by the sweep). -/
structure FsFile where
  name : String
  conv : Option StoredConv
deriving DecidableEq, Repr

/-- Milliseconds per day; `cutoffDate.setDate(cutoffDate.getDate() - ttl)`
is subtracting `ttl` days from `now`. -/
def msPerDay : Int := 86400000

/-- `conv.updated_at || conv.created_at` (storage.ts line 282). -/
def lastModified (c : StoredConv) : Int := c.updated_at.getD c.created_at

/-- Deletion condition of the sweep (storage.ts lines 275-285): a `.json` file
whose parsed timestamp precedes the cutoff; corrupted files are skipped. -/
def shouldDelete (cutoff : Int) (f : FsFile) : Bool :=
  f.name.endsWith ".json" &&
    (match f.conv with
     | some c => decide (lastModified c < cutoff)
     | none => false)

/-- `cleanupOldConversations` (storage.ts lines 258-302) over a listing of user
directories: per user directory, unlink every stale parseable `.json` file,
then remove the directory when nothing remains; returns the new listing and
the number of deleted files. -/
def cleanupOldConversations (fs : List (String × List FsFile)) (now : Int)
    (ttlDays : Int) : List (String × List FsFile) × Nat :=
  let cutoff := now - ttlDays * msPerDay
  let cleaned := fs.map (fun d => (d.1, d.2.filter (fun f => ! shouldDelete cutoff f)))
  (cleaned.filter (fun d => ! d.2.isEmpty),
   (fs.map (fun d => (d.2.filter (shouldDelete cutoff)).length)).sum)

-- ============================================
-- Upstream streaming client (services/openai.ts streamChatCompletion)
-- ============================================

/-- Normalized upstream stream event (`OpenAIStreamEvent`, openai.ts).  The
`done` variant additionally carries the optional response identifier emitted
by the resume-capable client variant (spec sections 3 and 9); the copy of
`streamChatCompletion` under src always leaves it `none`. -/
inductive UEvent
  | status (s : String) (progress : Nat)
  | text_delta (delta : String)
  | done (content : String) (usage : Option OpenAIUsage) (model : String)
      (responseId : Option String)
  | error (errorMessage errorCode : String)
deriving DecidableEq, Repr

/-- Parsed shape of one SSE `data:` line of the provider stream (openai.ts
lines 180-225): a text-delta frame (its `delta` field, possibly empty — the
source only forwards non-empty deltas), a completion frame (optional usage,
optional model), an explicit error frame, or anything else (`[DONE]`, comment
lines, unparseable JSON — all skipped). -/
inductive SSELine
  | delta (s : String)
  | completed (usage : Option OpenAIUsage) (model : Option String)
  | errorEvent (msg : String)
  | other
deriving DecidableEq, Repr

/-- Outcome of one HTTP attempt of the streaming call: a non-2xx response
(status plus optional `retry-after` header in seconds), a network-level
failure of `fetch` (a `TypeError`, not an `OpenAIError`), or a 2xx response
whose body parses into the given SSE lines. -/
inductive AttemptOutcome
  | httpError (status : Nat) (retryAfter : Option Nat)
  | networkError
  | success (lines : List SSELine)
deriving DecidableEq, Repr

/-- SSE body processing of a successful attempt (openai.ts lines 171-226).
Returns the yielded events and `some (content, usage, model)` when the body
ended normally (the generator then yields `done`), or `none` when an explicit
error frame ended the generator.  On a completion frame the source overwrites
`finalUsage` only when usage is present but always overwrites `finalModel`. -/
def processLines : List SSELine → String → Option OpenAIUsage → Option String →
    List UEvent × Option (String × Option OpenAIUsage × Option String)
  | [], content, usage, model => ([], some (content, usage, model))
  | SSELine.delta s :: rest, content, usage, model =>
    if s = "" then processLines rest content usage model
    else
      let r := processLines rest (content ++ s) usage model
      (UEvent.text_delta s :: r.1, r.2)
  | SSELine.completed u m :: rest, content, usage, _ =>
    processLines rest content (match u with | some u2 => some u2 | none => usage) m
  | SSELine.errorEvent msg :: _, _, _, _ =>
    ([UEvent.error msg "OPENAI_STREAM_ERROR"], none)
  | SSELine.other :: rest, content, usage, model =>
    processLines rest content usage model

/-- `MAX_RETRIES_429` (openai.ts line 42). -/
def MAX_RETRIES_429 : Nat := 3

/-- `BASE_RETRY_DELAY` in ms (openai.ts line 44). -/
def BASE_RETRY_DELAY : Nat := 2000

/-- Retry delay on 429 (openai.ts line 130): `retry-after` seconds times 1000
when the header is present, else exponential backoff from the base. -/
def retryDelay429 (retryAfter : Option Nat) (retryCount : Nat) : Nat :=
  match retryAfter with
  | some r => r * 1000
  | none => BASE_RETRY_DELAY * 2 ^ retryCount

/-- The 429 retry status event (openai.ts line 139); the delay is always a
multiple of 1000 ms, so `Math.round(delay / 1000)` is exact division. -/
def retryStatus429 (delay : Nat) : UEvent :=
  UEvent.status ("Высокая нагрузка, повтор через " ++ toString (delay / 1000) ++ "с...") 15

/-- The retry loop of `streamChatCompletion` (openai.ts lines 74-270), fuelled
by the remaining loop iterations (`retryCount` starts at 0 and every retry
requires `retryCount < MAX_RETRIES_429`, so at most 4 iterations run; the
fuel-0 case is unreachable from `streamChatCompletion`).  Result: the events
yielded by the remaining iterations, paired with `true` when the generator
throws an `OpenAIError` (non-retryable HTTP error or 429 with retries
exhausted) instead of finishing normally. -/
def scLoop (cfgModel : String) (attempts : Nat → AttemptOutcome) :
    Nat → Nat → List UEvent × Bool
  | _, 0 => ([], true)
  | rc, fuel + 1 =>
    let sent := UEvent.status "Отправлен запрос к модели..." 20
    match attempts rc with
    | AttemptOutcome.httpError status ra =>
      if status = 429 ∧ rc < MAX_RETRIES_429 then
        let r := scLoop cfgModel attempts (rc + 1) fuel
        (sent :: retryStatus429 (retryDelay429 ra rc) :: r.1, r.2)
      else
        ([sent], true)
    | AttemptOutcome.networkError =>
      if rc < MAX_RETRIES_429 then
        let r := scLoop cfgModel attempts (rc + 1) fuel
        (sent :: UEvent.status "Повторная попытка подключения..." 15 :: r.1, r.2)
      else
        ([sent, UEvent.error "Модель временно недоступна. Попробуйте позже." "OPENAI_UNAVAILABLE"],
         false)
    | AttemptOutcome.success lines =>
      match processLines lines "" none none with
      | (evs, some (content, usage, model)) =>
        (sent :: (evs ++ [UEvent.done content usage (model.getD cfgModel) none]), false)
      | (evs, none) => (sent :: evs, false)

/-- `streamChatCompletion` (openai.ts lines 63-284): initial connection status
event, then the retry loop; `cfgModel` is `config.openai.model`.  Returns the
yielded event list and whether the generator threw an `OpenAIError`. -/
def streamChatCompletion (cfgModel : String) (attempts : Nat → AttemptOutcome) :
    List UEvent × Bool :=
  let r := scLoop cfgModel attempts 0 4
  (UEvent.status "Подключение к AI модели..." 10 :: r.1, r.2)

-- ============================================
-- Chat orchestrator (services/chat.ts ChatService.sendMessageStream)
-- ============================================

/-- Orchestrator-level stream event (`StreamEvent`, chat.ts lines 48-58).  The
final `done` of the orchestrator carries content, usage and responseId
(chat.ts lines 275-280). -/
inductive OEvent
  | status (s : String) (progress : Nat)
  | text_delta (delta : String)
  | done (content : String) (usage : Option OpenAIUsage) (responseId : Option String)
  | error (errorMessage errorCode : String)
deriving DecidableEq, Repr

/-- `BillingStartResponse` (services/core.ts, concatenated into storage.ts). -/
structure BillingStartResponse where
  allowed : Bool
  reason : Option String
  balance : Int
deriving DecidableEq, Repr

/-- Settlement action (`billingFinish`, services/core.ts). -/
inductive BillingAction
  | commit
  | rollback
deriving DecidableEq, Repr

/-- External calls performed by one `sendMessageStream` invocation, recorded
in order in the trace. -/
inductive Effect
  | billingStartCall (userId requestId : String)
  | billingFinishCall (userId requestId : String) (action : BillingAction)
      (usage : Option OpenAIUsage) (model : Option String)
  | addMessageCall (userId sessionId : String) (role : Role) (content : String)
      (responseId : Option String)
  | aiCall (input : List (Role × String)) (previousResponseId : Option String)
deriving DecidableEq, Repr

/-- One step of the orchestrator: either a yielded event or a performed side
effect, in program order. -/
inductive Step
  | ev (e : OEvent)
  | eff (f : Effect)
deriving DecidableEq, Repr

/-- Events of a trace, in order. -/
def stepsEvents (l : List Step) : List OEvent :=
  l.filterMap fun s => match s with | Step.ev e => some e | Step.eff _ => none

/-- Effects of a trace, in order. -/
def stepsEffects (l : List Step) : List Effect :=
  l.filterMap fun s => match s with | Step.eff f => some f | Step.ev _ => none

/-- Environment of one invocation: outcome of `coreClient.billingStart`
(`Except.error` = the call threw), the `config.nodeEnv === 'development'`
flag, the event list produced by the upstream streaming generator, and
whether that generator raises after its last yielded event. -/
structure ChatEnv where
  billing : Except Unit BillingStartResponse
  devMode : Bool
  upstream : List UEvent
  upstreamThrows : Bool

/-- `SendMessageParams` (chat.ts lines 32-46); images are handled at the route
layer and not read by `sendMessageStream`. -/
structure SendParams where
  sessionId : String
  userId : String
  message : String
  requestId : String
  shellId : Option String
  originUrl : Option String
  context : Option (List (String × String))
deriving DecidableEq, Repr

/-- Context injection into the first message (chat.ts lines 137-141):
`Object.entries(context).map(([k, v]) => k + ': ' + v).join(', ')`. -/
def ctxJoin (ctx : List (String × String)) : String :=
  String.intercalate ", " (ctx.map (fun kv => kv.1 ++ ": " ++ kv.2))

/-- Mutable locals of the upstream loop (chat.ts lines 161-165). -/
structure GenState where
  finalContent : String
  finalUsage : Option OpenAIUsage
  finalModel : Option String
  finalResponseId : Option String
  aiSucceeded : Bool
deriving DecidableEq, Repr

/-- How the `for await` over the upstream generator ended (chat.ts lines
167-221): early `return` after forwarding an upstream `error` event, the
`catch` path after the generator threw, or normal completion with the
captured locals. -/
inductive LoopExit
  | errored
  | thrown
  | completed (st : GenState)
deriving DecidableEq, Repr

/-- The user-facing message of the AI_ERROR event (chat.ts line 217). -/
def aiErrorMessage : String := "Ошибка генерации ответа. Попробуйте позже."

/-- The `for await (const event of streamChatCompletion(...))` loop of
`sendMessageStream` (chat.ts lines 167-221): forward `text_delta` and `status`
verbatim, capture `done` silently, on an upstream `error` forward it, roll
back billing if pre-authorized, and return; if the generator throws, roll back
billing and emit the `AI_ERROR` event.  (`billingFinish` failures are caught
and only logged, so they are not modelled.) -/
def consumeUpstream (billingStarted : Bool) (userId requestId : String) :
    List UEvent → Bool → GenState → List Step × LoopExit
  | [], throws, st =>
    if throws then
      ((if billingStarted then
          [Step.eff (Effect.billingFinishCall userId requestId BillingAction.rollback none none)]
        else []) ++ [Step.ev (OEvent.error aiErrorMessage "AI_ERROR")],
       LoopExit.thrown)
    else ([], LoopExit.completed st)
  | UEvent.text_delta d :: rest, throws, st =>
    let r := consumeUpstream billingStarted userId requestId rest throws st
    (Step.ev (OEvent.text_delta d) :: r.1, r.2)
  | UEvent.status s p :: rest, throws, st =>
    let r := consumeUpstream billingStarted userId requestId rest throws st
    (Step.ev (OEvent.status s p) :: r.1, r.2)
  | UEvent.done c u m rid :: rest, throws, _ =>
    consumeUpstream billingStarted userId requestId rest throws
      { finalContent := c, finalUsage := u, finalModel := some m
        finalResponseId := rid, aiSucceeded := true }
  | UEvent.error msg code :: _, _, _ =>
    (Step.ev (OEvent.error msg code) ::
       (if billingStarted then
          [Step.eff (Effect.billingFinishCall userId requestId BillingAction.rollback none none)]
        else []),
     LoopExit.errored)

/-- The possibly context-augmented user message (chat.ts lines 135-147):
context fields are injected only when the conversation exists with zero
messages and a non-empty context object was supplied. -/
def finalMessageOf (p : SendParams) (store : Store) : String :=
  match store (p.userId, p.sessionId), p.context with
  | some c, some ctx =>
    if c.messages = [] ∧ ctx ≠ [] then p.message ++ "\n\n" ++ ctxJoin ctx else p.message
  | _, _ => p.message

/-- Steps 3-9 of the lifecycle once the billing pre-check decided to continue
(chat.ts lines 131-281): history-load status, one-time context injection on
the session's first message, persist the user turn, read the prior response
identifier, call the upstream client with only the last message, consume its
events, then persist the assistant turn, settle billing, and yield the final
`done`. -/
def continueAfterBilling (p : SendParams) (env : ChatEnv) (store : Store)
    (now : Int) (pre : List Step) (billingStarted : Bool) : List Step × Store :=
  let s2 := pre ++ [Step.ev (OEvent.status "Загружаем историю беседы..." 10)]
  let finalMessage := finalMessageOf p store
  let store1 := addMessage store p.userId p.sessionId Role.user finalMessage none now
  let s3 := s2 ++ [Step.eff (Effect.addMessageCall p.userId p.sessionId Role.user finalMessage none)]
  let lastResponseId := getLastResponseId store1 p.userId p.sessionId
  let openaiInput : List (Role × String) := [(Role.user, finalMessage)]
  let s4 := s3 ++ [Step.eff (Effect.aiCall openaiInput lastResponseId)]
  let st0 : GenState :=
    { finalContent := "", finalUsage := none, finalModel := none
      finalResponseId := none, aiSucceeded := false }
  let r := consumeUpstream billingStarted p.userId p.requestId env.upstream env.upstreamThrows st0
  let s5 := s4 ++ r.1
  match r.2 with
  | LoopExit.errored => (s5, store1)
  | LoopExit.thrown => (s5, store1)
  | LoopExit.completed st =>
    let persist :=
      if st.aiSucceeded ∧ st.finalContent ≠ "" then
        ([Step.eff (Effect.addMessageCall p.userId p.sessionId Role.assistant
            st.finalContent st.finalResponseId)],
         addMessageR store1 p.userId p.sessionId Role.assistant st.finalContent none
           st.finalResponseId now)
      else ([], store1)
    let billSteps :=
      if billingStarted ∧ st.aiSucceeded ∧ st.finalUsage.isSome then
        [Step.eff (Effect.billingFinishCall p.userId p.requestId BillingAction.commit
           st.finalUsage st.finalModel)]
      else if billingStarted ∧ ¬ st.aiSucceeded then
        [Step.eff (Effect.billingFinishCall p.userId p.requestId BillingAction.rollback none none)]
      else []
    (s5 ++ persist.1 ++ billSteps ++
       [Step.ev (OEvent.done st.finalContent st.finalUsage st.finalResponseId)],
     persist.2)

/-- The `${billingResult.reason}` interpolation of the BILLING_DENIED message
(chat.ts line 104): `null` renders as the string "null". -/
def reasonText : Option String → String
  | some s => s
  | none => "null"

/-- `ChatService.sendMessageStream` (chat.ts lines 64-281) as a trace-producing
function: initial balance status event, billing pre-check with its three
denial/error terminations and the development-mode fallback, then the rest of
the lifecycle.  Returns the interleaved trace and the final store. -/
def sendMessageStream (p : SendParams) (env : ChatEnv) (store : Store) (now : Int) :
    List Step × Store :=
  let s1 : List Step :=
    [Step.ev (OEvent.status "Проверяем баланс..." 5),
     Step.eff (Effect.billingStartCall p.userId p.requestId)]
  match env.billing with
  | Except.error _ =>
    if env.devMode then
      continueAfterBilling p env store now s1 false
    else
      (s1 ++ [Step.ev (OEvent.error "Ошибка проверки баланса. Попробуйте позже." "BILLING_ERROR")],
       store)
  | Except.ok r =>
    if r.allowed then
      continueAfterBilling p env store now s1 true
    else if r.reason = some "balance_non_positive" ∨ r.reason = some "balance_below_threshold" then
      (s1 ++ [Step.ev (OEvent.error
          "Недостаточно средств на балансе. Пополните баланс для продолжения."
          "INSUFFICIENT_BALANCE")],
       store)
    else
      (s1 ++ [Step.ev (OEvent.error ("Операция отклонена: " ++ reasonText r.reason)
          "BILLING_DENIED")],
       store)

-- ============================================
-- Synchronous variant (chat.ts ChatService.sendMessage)
-- ============================================

/-- Draining loop of `ChatService.sendMessage` (chat.ts lines 286-304) over
the trace of `sendMessageStream`: capture each `done`; the first `error`
event throws a `ChatError(errorCode || 'CHAT_ERROR', ..., 500)` — throwing
out of a `for await` terminates the generator at that yield, so later steps
of the trace do not run.  Returns the outcome (error code+message, or content
and usage) and the steps actually performed. -/
def drainSteps : List Step → String → Option OpenAIUsage →
    (Except (String × String) (String × Option OpenAIUsage)) × List Step
  | [], c, u => (Except.ok (c, u), [])
  | Step.eff f :: rest, c, u =>
    let r := drainSteps rest c u
    (r.1, Step.eff f :: r.2)
  | Step.ev (OEvent.done c2 u2 rid) :: rest, _, _ =>
    let r := drainSteps rest c2 u2
    (r.1, Step.ev (OEvent.done c2 u2 rid) :: r.2)
  | Step.ev (OEvent.error m code) :: _, _, _ =>
    (Except.error (if code = "" then "CHAT_ERROR" else code,
       if m = "" then "Ошибка генерации ответа" else m),
     [Step.ev (OEvent.error m code)])
  | Step.ev e :: rest, c, u =>
    let r := drainSteps rest c u
    (r.1, Step.ev e :: r.2)

/-- `ChatService.sendMessage` (chat.ts lines 286-304). -/
def sendMessage (p : SendParams) (env : ChatEnv) (store : Store) (now : Int) :
    (Except (String × String) (String × Option OpenAIUsage)) × List Step × Store :=
  let r := sendMessageStream p env store now
  let d := drainSteps r.1 "" none
  (d.1, d.2, r.2)

-- ============================================
-- Route validation (routes/chat.ts POST /send and POST /stream)
-- ============================================

/-- One element of the request `images` array (routes/chat.ts lines 23-30);
only its count matters to validation. -/
structure ReqImage where
  data : String
  filename : String
  mimeType : Option String
  mime_type : Option String
  size_bytes : Option Nat
  sizeBytes : Option Nat
deriving DecidableEq, Repr

/-- `SendMessageBody` (routes/chat.ts lines 19-34); absent fields are `none`. -/
structure SendMessageBody where
  session_id : Option String
  user_id : Option String
  message : Option String
  images : Option (List ReqImage)
  shell_id : Option String
  origin_url : Option String
  context : Option (List (String × String))
deriving DecidableEq, Repr

/-- `String.prototype.trim` of JavaScript: strip leading and trailing
whitespace (space, tab, newline, carriage return in this model). -/
def jsTrim (s : String) : String :=
  String.mk (((s.toList.dropWhile Char.isWhitespace).reverse.dropWhile
    Char.isWhitespace).reverse)

/-- JS falsiness of an optional string field (`!session_id`): absent or empty. -/
def falsyStr : Option String → Bool
  | none => true
  | some s => s == ""

/-- Error envelope produced by a failed request (HTTP status and machine
code); for `/stream` it is written directly with `res.status(400)`, for
`/send` the thrown `ChatError` reaches `errorHandler`, which replies with
`err.httpStatus` and `err.code` (middleware/errorHandler.ts lines 41-45). -/
structure RouteError where
  httpStatus : Nat
  code : String
deriving DecidableEq, Repr

/-- The shared validation sequence of both handlers (routes/chat.ts lines
47-66 and 106-129): required `session_id`, `user_id`, non-empty trimmed
`message`, then at most 5 images.  Both paths use the same codes and 400. -/
def validateSendBody (b : SendMessageBody) : Option RouteError :=
  if falsyStr b.session_id then some { httpStatus := 400, code := "MISSING_SESSION_ID" }
  else if falsyStr b.user_id then some { httpStatus := 400, code := "MISSING_USER_ID" }
  else if (match b.message with | none => true | some m => jsTrim m == "") then
    some { httpStatus := 400, code := "EMPTY_MESSAGE" }
  else
    match b.images with
    | some imgs =>
      if imgs.length > 5 then some { httpStatus := 400, code := "TOO_MANY_IMAGES" } else none
    | none => none

/-- Parameters passed to the service on a valid body (routes/chat.ts lines
68-77 / 152-161): trimmed message, identifiers as given. -/
def paramsOfBody (b : SendMessageBody) (requestId : String) : SendParams :=
  { sessionId := b.session_id.getD ""
    userId := b.user_id.getD ""
    message := jsTrim (b.message.getD "")
    requestId := requestId
    shellId := b.shell_id
    originUrl := b.origin_url
    context := b.context }

/-- `POST /api/chat/stream` (routes/chat.ts lines 98-197): validation, then
the orchestrator; the result is the event list relayed (disconnection handled
separately, see `stepsThruEvent`), the effects performed, and the final store.
Validation failures perform nothing and leave the store unchanged. -/
def handleStream (b : SendMessageBody) (requestId : String) (env : ChatEnv)
    (store : Store) (now : Int) :
    (Except RouteError (List OEvent)) × List Effect × Store :=
  match validateSendBody b with
  | some e => (Except.error e, [], store)
  | none =>
    let r := sendMessageStream (paramsOfBody b requestId) env store now
    (Except.ok (stepsEvents r.1), stepsEffects r.1, r.2)

/-- `POST /api/chat/send` (routes/chat.ts lines 40-86): validation, then the
synchronous drain; a `ChatError` thrown by the drain reaches `errorHandler`
and is reported with its own `httpStatus` (500) and code. -/
def handleSend (b : SendMessageBody) (requestId : String) (env : ChatEnv)
    (store : Store) (now : Int) :
    (Except RouteError (String × Option OpenAIUsage)) × List Effect × Store :=
  match validateSendBody b with
  | some e => (Except.error e, [], store)
  | none =>
    let r := sendMessage (paramsOfBody b requestId) env store now
    (match r.1 with
     | Except.error ec => Except.error { httpStatus := 500, code := ec.1 }
     | Except.ok v => Except.ok v,
     stepsEffects r.2.1, r.2.2)

-- ============================================
-- Stream transport under client disconnect (routes/chat.ts lines 146-185)
-- ============================================

/-- Steps of a trace up to and including the production of the `(n+1)`-th
yielded event.  When the client disconnects after `n` events have been
relayed, the transport's `for await` loop breaks on the next event; per
JavaScript semantics an abrupt completion of `for await` invokes
`AsyncGenerator.return` on the orchestrator's generator, resuming its
suspended `yield` with a return completion — so exactly the steps up to and
including that yield were performed, and nothing after it runs (there are no
`finally` blocks in `sendMessageStream`). -/
def stepsThruEvent : List Step → Nat → List Step
  | [], _ => []
  | Step.ev e :: _, 0 => [Step.ev e]
  | Step.ev e :: rest, k + 1 => Step.ev e :: stepsThruEvent rest k
  | Step.eff f :: rest, k => Step.eff f :: stepsThruEvent rest k

/-- The wire output and the performed orchestrator steps when the client
disconnects after `n` relayed events (routes/chat.ts lines 146-164: the
`close` handler sets `clientDisconnected`, and the loop breaks before writing
the next event). -/
def disconnectRun (tr : List Step) (n : Nat) : List OEvent × List Step :=
  ((stepsEvents tr).take n, stepsThruEvent tr n)

-- ============================================
-- Claim-level observations
-- ============================================

/-- Terminal events of the orchestrator sequence: `done` or `error`. -/
def OEvent.isTerminal : OEvent → Bool
  | OEvent.done _ _ _ => true
  | OEvent.error _ _ => true
  | _ => false

/-- An event list ends in exactly one terminal event: one `done` or one
`error`, never both, never neither, never more than one of either. -/
def endsWithOneTerminal (evs : List OEvent) : Prop :=
  (evs.filter OEvent.isTerminal).length = 1 ∧
    ∃ e, evs.getLast? = some e ∧ OEvent.isTerminal e = true

/-- Settlement (`billingFinish`) actions recorded in a trace, in order. -/
def settlements (l : List Step) : List BillingAction :=
  l.filterMap fun s =>
    match s with
    | Step.eff (Effect.billingFinishCall _ _ a _ _) => some a
    | _ => none

/-- Upstream generation calls recorded in a trace, in order. -/
def aiCalls (l : List Step) : List (List (Role × String) × Option String) :=
  l.filterMap fun s =>
    match s with
    | Step.eff (Effect.aiCall input prev) => some (input, prev)
    | _ => none

/-- Store appends recorded in a trace, in order. -/
def addMessageCalls (l : List Step) : List (Role × String × Option String) :=
  l.filterMap fun s =>
    match s with
    | Step.eff (Effect.addMessageCall _ _ r c rid) => some (r, c, rid)
    | _ => none

/-- The settlements the source actually performs for a pre-authorized
invocation, computed from the upstream event list, the throw flag and the
running capture state (`some u` = a `done` was seen, with usage `u`): one
rollback at the first upstream `error` event; after a clean loop, one rollback
when the generator threw; otherwise one commit when a `done` with usage was
captured, one rollback when no `done` was captured at all, and — the gap the
code leaves — no settlement when a `done` without usage was captured. -/
def expectedSettlements : List UEvent → Bool → Option (Option OpenAIUsage) → List BillingAction
  | [], throws, captured =>
    if throws then [BillingAction.rollback]
    else
      match captured with
      | none => [BillingAction.rollback]
      | some (some _) => [BillingAction.commit]
      | some none => []
  | UEvent.error _ _ :: _, _, _ => [BillingAction.rollback]
  | UEvent.done _ u _ _ :: rest, throws, _ => expectedSettlements rest throws (some u)
  | _ :: rest, throws, captured => expectedSettlements rest throws captured

/-- Sequential title evolution of `addMessage` (storage.ts lines 162-164),
in closed form: the truncation of the first user message whose truncation
differs from the default title; the default while none exists. -/
def titleSpec : List (Role × String × Int) → String
  | [] => defaultTitle
  | (Role.user, c, _) :: rest =>
    if truncTitle c = defaultTitle then titleSpec rest else truncTitle c
  | _ :: rest => titleSpec rest

/-- Fold of successive `addMessage` calls (role, content, timestamp). -/
def addAll (store : Store) (userId sessionId : String) :
    List (Role × String × Int) → Store
  | [] => store
  | (r, c, t) :: rest => addAll (addMessage store userId sessionId r c none t) userId sessionId rest

/-- The settlement steps appended after a clean upstream loop (chat.ts lines
229-259), as a function of the captured locals (for a pre-authorized
invocation). -/
def postSettle (st2 : GenState) : List BillingAction :=
  if st2.aiSucceeded ∧ st2.finalUsage.isSome then [BillingAction.commit]
  else if ¬ st2.aiSucceeded then [BillingAction.rollback] else []

/-- No explicit `error` event occurs in an upstream event list. -/
def noErrorEvents (evs : List UEvent) : Bool :=
  evs.all fun e => match e with | UEvent.error _ _ => false | _ => true

/-- The last `done` event of an upstream list (the values the orchestrator
holds in its locals when the loop ends): content, usage, model, responseId. -/
def lastDone : List UEvent → Option (String × Option OpenAIUsage × String × Option String)
  | [] => none
  | UEvent.done c u m rid :: rest =>
    (match lastDone rest with
     | some x => some x
     | none => some (c, u, m, rid))
  | _ :: rest => lastDone rest

/-- Files surviving the sweep in one user directory. -/
def keptFiles (cutoff : Int) (files : List FsFile) : List FsFile :=
  files.filter (fun f => ! shouldDelete cutoff f)

-- ============================================
-- Theorems
-- ============================================

-- Storage lemmas

lemma addMessage_messages (store : Store) (uid sid : String) (r : Role) (c : String)
    (att : Option (List MessageAttachment)) (t : Int) :
    ((addMessage store uid sid r c att t) (uid, sid)).map Conversation.messages =
      some ((match store (uid, sid) with
             | some c0 => c0.messages
             | none => []) ++
        [{ role := r, content := c, timestamp := t, attachments := att, responseId := none }]) := by
  unfold addMessage Store.set
  cases h : store (uid, sid) <;> dsimp only <;> split_ifs <;> simp_all [createConversation]

lemma addMessage_title (store : Store) (uid sid : String) (r : Role) (c : String)
    (att : Option (List MessageAttachment)) (t : Int) :
    ((addMessage store uid sid r c att t) (uid, sid)).map Conversation.title =
      some (if r = Role.user ∧
              (match store (uid, sid) with
               | some c0 => c0.title
               | none => defaultTitle) = defaultTitle
            then truncTitle c
            else (match store (uid, sid) with
                  | some c0 => c0.title
                  | none => defaultTitle)) := by
  unfold addMessage Store.set
  cases h : store (uid, sid) <;> dsimp only <;> split_ifs <;> simp_all [createConversation]

lemma addAll_messages (uid sid : String) (ms : List (Role × String × Int)) :
    ∀ (store : Store) (c0 : Conversation), store (uid, sid) = some c0 →
    ∃ conv, (addAll store uid sid ms) (uid, sid) = some conv ∧
      conv.messages.map (fun m => (m.role, m.content)) =
        c0.messages.map (fun m => (m.role, m.content)) ++ ms.map (fun x => (x.1, x.2.1)) := by
  induction ms with
  | nil => exact fun store c0 h => ⟨c0, h, by simp [addAll]⟩
  | cons hd tl ih =>
    intro store c0 h
    obtain ⟨r, c, t⟩ := hd
    have hm := addMessage_messages store uid sid r c none t
    rw [h] at hm
    rw [Option.map_eq_some'] at hm
    obtain ⟨conv1, h1, h2⟩ := hm
    obtain ⟨conv, hc, hmm⟩ := ih (addMessage store uid sid r c none t) conv1 h1
    refine ⟨conv, by simpa [addAll] using hc, ?_⟩
    rw [hmm, h2]
    simp

/-- C7: writing N messages to an existing (empty) conversation and reading it
back yields exactly those N messages, in append order, with role and content
unchanged. -/
theorem addMessage_roundtrip (store : Store) (uid sid : String) (c0 : Conversation)
    (ms : List (Role × String × Int))
    (h1 : getConversation store uid sid = some c0) (h2 : c0.messages = []) :
    ∃ conv, getConversation (addAll store uid sid ms) uid sid = some conv ∧
      conv.messages.map (fun m => (m.role, m.content)) = ms.map (fun x => (x.1, x.2.1)) ∧
      conv.messages.length = ms.length := by
  obtain ⟨conv, hc, hm⟩ := addAll_messages uid sid ms store c0 h1
  rw [h2] at hm
  simp only [List.map_nil, List.nil_append] at hm
  refine ⟨conv, hc, hm, ?_⟩
  have := congrArg List.length hm
  simpa using this

theorem addMessage_roundtrip_witness :
    ∃ conv,
      getConversation
        (addAll (Store.set (fun _ => none) ("u", "s") (createConversation "u" "s" 0)) "u" "s"
          [(Role.user, "привет", 1), (Role.assistant, "здравствуйте", 2)]) "u" "s" = some conv ∧
      conv.messages.map (fun m => (m.role, m.content)) =
        [(Role.user, "привет"), (Role.assistant, "здравствуйте")] ∧
      conv.messages.length = 2 := by
  exact addMessage_roundtrip _ "u" "s" (createConversation "u" "s" 0)
    [(Role.user, "привет", 1), (Role.assistant, "здравствуйте", 2)] (by rfl) (by rfl)

lemma addAll_title (uid sid : String) (ms : List (Role × String × Int)) :
    ∀ (store : Store) (c0 : Conversation), store (uid, sid) = some c0 →
    ∃ conv, (addAll store uid sid ms) (uid, sid) = some conv ∧
      conv.title = (if c0.title = defaultTitle then titleSpec ms else c0.title) := by
  induction ms with
  | nil =>
    intro store c0 h
    refine ⟨c0, by simpa [addAll] using h, ?_⟩
    split_ifs with hd
    · rw [titleSpec, hd]
    · rfl
  | cons hd tl ih =>
    intro store c0 h
    obtain ⟨r, c, t⟩ := hd
    have ht := addMessage_title store uid sid r c none t
    rw [h] at ht
    rw [Option.map_eq_some'] at ht
    obtain ⟨conv1, h1, h2⟩ := ht
    obtain ⟨conv, hc, htt⟩ := ih (addMessage store uid sid r c none t) conv1 h1
    refine ⟨conv, by simpa [addAll] using hc, ?_⟩
    rw [htt, h2]
    cases r with
    | user =>
      by_cases hd0 : c0.title = defaultTitle
      · simp only [hd0, if_pos (And.intro rfl rfl), titleSpec]
        by_cases htr : truncTitle c = defaultTitle
        · simp [htr]
        · simp [htr]
      · have : ¬ (Role.user = Role.user ∧ c0.title = defaultTitle) := fun hh => hd0 hh.2
        simp only [if_neg this, if_neg hd0]
        simp [hd0]
    | assistant =>
      have : ¬ (Role.assistant = Role.user ∧ c0.title = defaultTitle) := fun hh => by cases hh.1
      simp only [if_neg this, titleSpec]
    | system =>
      have : ¬ (Role.system = Role.user ∧ c0.title = defaultTitle) := fun hh => by cases hh.1
      simp only [if_neg this, titleSpec]

lemma truncTitle_length (c : String) : (truncTitle c).toList.length ≤ 83 := by
  unfold truncTitle
  split_ifs with h <;>
    simp [String.toList, String.data_append, List.length_take]

lemma titleSpec_length (ms : List (Role × String × Int)) :
    (titleSpec ms).toList.length ≤ 83 := by
  induction ms with
  | nil => unfold titleSpec; decide
  | cons hd tl ih =>
    obtain ⟨r, c, t⟩ := hd
    cases r with
    | user =>
      unfold titleSpec
      split_ifs with h
      · exact ih
      · exact truncTitle_length c
    | assistant => unfold titleSpec; exact ih
    | system => unfold titleSpec; exact ih

/-- C10 (amended): starting from a freshly created conversation, the title
after any sequence of appends is the truncation of the first user message
whose truncation differs from the default title (the default while none was
appended — in particular until the first user message), and never exceeds 83
characters. -/
theorem title_evolution (store : Store) (uid sid : String) (t0 : Int)
    (ms : List (Role × String × Int))
    (h : getConversation store uid sid = some (createConversation uid sid t0)) :
    ∃ conv, getConversation (addAll store uid sid ms) uid sid = some conv ∧
      conv.title = titleSpec ms ∧ conv.title.toList.length ≤ 83 := by
  obtain ⟨conv, hc, ht⟩ := addAll_title uid sid ms store _ h
  have : conv.title = titleSpec ms := by
    rw [ht]; simp [createConversation]
  exact ⟨conv, hc, this, this ▸ titleSpec_length ms⟩

theorem title_evolution_witness :
    ∃ conv,
      getConversation
        (addAll (Store.set (fun _ => none) ("u", "s") (createConversation "u" "s" 0)) "u" "s"
          [(Role.assistant, "ok", 1), (Role.user, "Как настроить Nginx?", 2),
           (Role.user, "вторая", 3)]) "u" "s" = some conv ∧
      conv.title =
        titleSpec [(Role.assistant, "ok", 1), (Role.user, "Как настроить Nginx?", 2),
          (Role.user, "вторая", 3)] ∧
      conv.title.toList.length ≤ 83 := by
  exact title_evolution _ "u" "s" 0 _ (by rfl)

/-- C10 counterexample: a first user message whose 80-character truncation
equals the default title leaves the title equal to the default, so the next
user append changes the title again — refuting "no subsequent append to the
conversation changes the title again". -/
theorem title_counterexample :
    (((addAll (Store.set (fun _ => none) ("u", "s") (createConversation "u" "s" 0)) "u" "s"
        [(Role.user, "Новая беседа", 1)]) ("u", "s")).map Conversation.title =
      some "Новая беседа") ∧
    (((addAll (Store.set (fun _ => none) ("u", "s") (createConversation "u" "s" 0)) "u" "s"
        [(Role.user, "Новая беседа", 1), (Role.user, "привет", 2)]) ("u", "s")).map
        Conversation.title = some "привет") ∧
    ("привет" : String) ≠ "Новая беседа" := by
  refine ⟨by decide, by decide, by decide⟩

-- Retention sweep lemmas (C8)

lemma key_unique {α β : Type} {l : List (α × β)} (h : (l.map Prod.fst).Nodup)
    {a : α} {b b2 : β} (h1 : (a, b) ∈ l) (h2 : (a, b2) ∈ l) : b = b2 := by
  induction l with
  | nil => cases h1
  | cons hd tl ih =>
    simp only [List.map_cons, List.nodup_cons] at h
    rcases List.mem_cons.mp h1 with h1e | h1t <;>
      rcases List.mem_cons.mp h2 with h2e | h2t
    · rw [← h1e] at h2e
      exact congrArg Prod.snd h2e.symm
    · exfalso
      apply h.1
      rw [List.mem_map]
      exact ⟨(a, b2), h2t, by rw [← h1e]⟩
    · exfalso
      apply h.1
      rw [List.mem_map]
      exact ⟨(a, b), h1t, by rw [← h2e]⟩
    · exact ih h.2 h1t h2t

/-- C8: the retention sweep deletes a stored (parseable, `.json`) conversation
exactly when its last-modified timestamp precedes `now` minus the TTL in days,
and retains it otherwise; a user directory is kept exactly when files remain
in it after the sweep. -/
theorem cleanup_retention (fs : List (String × List FsFile)) (now ttlDays : Int)
    (u : String) (files : List FsFile)
    (hN : (fs.map Prod.fst).Nodup) (hm : (u, files) ∈ fs) :
    (∀ (f : FsFile) (c : StoredConv), f ∈ files → f.name.endsWith ".json" = true →
      f.conv = some c →
      (f ∈ keptFiles (now - ttlDays * msPerDay) files ↔
        ¬ lastModified c < now - ttlDays * msPerDay)) ∧
    (keptFiles (now - ttlDays * msPerDay) files ≠ [] →
      (u, keptFiles (now - ttlDays * msPerDay) files) ∈
        (cleanupOldConversations fs now ttlDays).1) ∧
    (keptFiles (now - ttlDays * msPerDay) files = [] →
      ∀ files2, (u, files2) ∉ (cleanupOldConversations fs now ttlDays).1) := by
  refine ⟨?_, ?_, ?_⟩
  · intro f c hf hjson hconv
    unfold keptFiles
    rw [List.mem_filter]
    unfold shouldDelete
    rw [hjson, hconv]
    simp [hf]
  · intro hne
    unfold cleanupOldConversations
    simp only [List.mem_filter]
    constructor
    · exact List.mem_map.mpr ⟨(u, files), hm, rfl⟩
    · simpa [keptFiles, List.isEmpty_iff] using hne
  · intro hemp files2 hmem
    unfold cleanupOldConversations at hmem
    simp only [List.mem_filter] at hmem
    obtain ⟨hmem1, hne⟩ := hmem
    obtain ⟨⟨u2, files3⟩, hin, heq⟩ := List.mem_map.mp hmem1
    have hu : u2 = u := congrArg Prod.fst heq
    rw [hu] at hin
    have : files3 = files := key_unique hN hin hm
    rw [this] at heq
    have : files2 = keptFiles (now - ttlDays * msPerDay) files := by
      have := congrArg Prod.snd heq
      simpa [keptFiles] using this.symm
    rw [this, hemp] at hne
    simp at hne

theorem cleanup_retention_witness :
    (∀ (f : FsFile) (c : StoredConv),
      f ∈ [{ name := "a.json", conv := some { created_at := 0, updated_at := some (-8 * msPerDay) } },
           { name := "b.json", conv := some { created_at := 0, updated_at := some (-6 * msPerDay) } }] →
      f.name.endsWith ".json" = true → f.conv = some c →
      (f ∈ keptFiles (0 - 7 * msPerDay)
          [{ name := "a.json", conv := some { created_at := 0, updated_at := some (-8 * msPerDay) } },
           { name := "b.json", conv := some { created_at := 0, updated_at := some (-6 * msPerDay) } }] ↔
        ¬ lastModified c < 0 - 7 * msPerDay)) ∧
    (keptFiles (0 - 7 * msPerDay)
        [{ name := "a.json", conv := some { created_at := 0, updated_at := some (-8 * msPerDay) } },
         { name := "b.json", conv := some { created_at := 0, updated_at := some (-6 * msPerDay) } }] ≠ [] →
      ("u", keptFiles (0 - 7 * msPerDay)
          [{ name := "a.json", conv := some { created_at := 0, updated_at := some (-8 * msPerDay) } },
           { name := "b.json", conv := some { created_at := 0, updated_at := some (-6 * msPerDay) } }]) ∈
        (cleanupOldConversations
          [("u", [{ name := "a.json", conv := some { created_at := 0, updated_at := some (-8 * msPerDay) } },
                  { name := "b.json", conv := some { created_at := 0, updated_at := some (-6 * msPerDay) } }])]
          0 7).1) ∧
    (keptFiles (0 - 7 * msPerDay)
        [{ name := "a.json", conv := some { created_at := 0, updated_at := some (-8 * msPerDay) } },
         { name := "b.json", conv := some { created_at := 0, updated_at := some (-6 * msPerDay) } }] = [] →
      ∀ files2, ("u", files2) ∉
        (cleanupOldConversations
          [("u", [{ name := "a.json", conv := some { created_at := 0, updated_at := some (-8 * msPerDay) } },
                  { name := "b.json", conv := some { created_at := 0, updated_at := some (-6 * msPerDay) } }])]
          0 7).1) := by
  exact cleanup_retention _ 0 7 "u" _ (by simp) (by simp)

/-- C9: a send-message request (streaming or synchronous) that is otherwise
valid but carries more than 5 images is rejected with HTTP 400 and code
TOO_MANY_IMAGES, performs no store write and no billing call, and leaves the
store unchanged. -/
theorem too_many_images (b : SendMessageBody) (requestId : String) (env : ChatEnv)
    (store : Store) (now : Int)
    (h1 : falsyStr b.session_id = false) (h2 : falsyStr b.user_id = false)
    (h3 : ∃ m, b.message = some m ∧ (jsTrim m == "") = false)
    (h4 : ∃ imgs, b.images = some imgs ∧ imgs.length > 5) :
    handleStream b requestId env store now =
      (Except.error { httpStatus := 400, code := "TOO_MANY_IMAGES" }, [], store) ∧
    handleSend b requestId env store now =
      (Except.error { httpStatus := 400, code := "TOO_MANY_IMAGES" }, [], store) := by
  obtain ⟨m, hm, hmt⟩ := h3
  obtain ⟨imgs, hi, hlen⟩ := h4
  have hv : validateSendBody b = some { httpStatus := 400, code := "TOO_MANY_IMAGES" } := by
    unfold validateSendBody
    rw [h1, h2, hm, hi]
    simp [hmt, hlen]
  constructor
  · unfold handleStream
    rw [hv]
  · unfold handleSend
    rw [hv]

theorem too_many_images_witness :
    handleStream
      { session_id := some "s", user_id := some "u", message := some "привет",
        images := some (List.replicate 6
          { data := "d", filename := "f.png", mimeType := some "image/png",
            mime_type := none, size_bytes := none, sizeBytes := some 10 }),
        shell_id := none, origin_url := none, context := none } "r"
      { billing := Except.ok { allowed := true, reason := none, balance := 1 },
        devMode := false, upstream := [], upstreamThrows := false }
      (fun _ => none) 0 =
      (Except.error { httpStatus := 400, code := "TOO_MANY_IMAGES" }, [], fun _ => none) ∧
    handleSend
      { session_id := some "s", user_id := some "u", message := some "привет",
        images := some (List.replicate 6
          { data := "d", filename := "f.png", mimeType := some "image/png",
            mime_type := none, size_bytes := none, sizeBytes := some 10 }),
        shell_id := none, origin_url := none, context := none } "r"
      { billing := Except.ok { allowed := true, reason := none, balance := 1 },
        devMode := false, upstream := [], upstreamThrows := false }
      (fun _ => none) 0 =
      (Except.error { httpStatus := 400, code := "TOO_MANY_IMAGES" }, [], fun _ => none) := by
  exact too_many_images _ "r" _ _ 0 (by rfl) (by rfl)
    ⟨"привет", rfl, by rfl⟩ ⟨_, rfl, by simp⟩

-- Orchestrator lemmas

lemma stepsEvents_append (a b : List Step) :
    stepsEvents (a ++ b) = stepsEvents a ++ stepsEvents b := by
  unfold stepsEvents; rw [List.filterMap_append]

lemma stepsEffects_append (a b : List Step) :
    stepsEffects (a ++ b) = stepsEffects a ++ stepsEffects b := by
  unfold stepsEffects; rw [List.filterMap_append]

lemma settlements_append (a b : List Step) :
    settlements (a ++ b) = settlements a ++ settlements b := by
  unfold settlements; rw [List.filterMap_append]

lemma endsWithOneTerminal_append (pre : List OEvent) (t : OEvent)
    (h1 : pre.filter OEvent.isTerminal = []) (h2 : OEvent.isTerminal t = true) :
    endsWithOneTerminal (pre ++ [t]) := by
  refine ⟨?_, t, ?_, h2⟩
  · rw [List.filter_append, h1]
    simp [h2]
  · rw [List.getLast?_concat]

lemma consumeUpstream_shape (b : Bool) (uid rid : String) (evs : List UEvent)
    (throws : Bool) (st : GenState) :
    (∃ st2, (consumeUpstream b uid rid evs throws st).2 = LoopExit.completed st2 ∧
        (stepsEvents (consumeUpstream b uid rid evs throws st).1).filter OEvent.isTerminal = []) ∨
    (((consumeUpstream b uid rid evs throws st).2 = LoopExit.errored ∨
        (consumeUpstream b uid rid evs throws st).2 = LoopExit.thrown) ∧
      ∃ pre msg code, stepsEvents (consumeUpstream b uid rid evs throws st).1 =
        pre ++ [OEvent.error msg code] ∧ pre.filter OEvent.isTerminal = []) := by
  induction evs generalizing st with
  | nil =>
    cases hth : throws with
    | false =>
      left
      exact ⟨st, by simp [consumeUpstream], by simp [consumeUpstream, stepsEvents]⟩
    | true =>
      right
      refine ⟨Or.inr (by simp [consumeUpstream]), [], aiErrorMessage, "AI_ERROR", ?_, rfl⟩
      cases b <;> simp [consumeUpstream, stepsEvents]
  | cons hd tl ih =>
    cases hd with
    | text_delta d =>
      rcases ih st with ⟨st2, h1, h2⟩ | ⟨h1, pre, m, c, h2, h3⟩
      · left
        refine ⟨st2, by simpa [consumeUpstream] using h1, ?_⟩
        simpa [consumeUpstream, stepsEvents, OEvent.isTerminal] using h2
      · right
        refine ⟨?_, OEvent.text_delta d :: pre, m, c, ?_, ?_⟩
        · simpa [consumeUpstream] using h1
        · simp only [consumeUpstream, stepsEvents, List.filterMap_cons]
          rw [← stepsEvents]
          rw [h2]
          rfl
        · simpa [OEvent.isTerminal] using h3
    | status s p =>
      rcases ih st with ⟨st2, h1, h2⟩ | ⟨h1, pre, m, c, h2, h3⟩
      · left
        refine ⟨st2, by simpa [consumeUpstream] using h1, ?_⟩
        simpa [consumeUpstream, stepsEvents, OEvent.isTerminal] using h2
      · right
        refine ⟨?_, OEvent.status s p :: pre, m, c, ?_, ?_⟩
        · simpa [consumeUpstream] using h1
        · simp only [consumeUpstream, stepsEvents, List.filterMap_cons]
          rw [← stepsEvents]
          rw [h2]
          rfl
        · simpa [OEvent.isTerminal] using h3
    | done c u mo rid2 =>
      rcases ih ⟨c, u, some mo, rid2, true⟩ with
        ⟨st2, h1, h2⟩ | ⟨h1, pre, m, c2, h2, h3⟩
      · left
        exact ⟨st2, by simpa [consumeUpstream] using h1,
          by simpa [consumeUpstream] using h2⟩
      · right
        exact ⟨by simpa [consumeUpstream] using h1,
          pre, m, c2, by simpa [consumeUpstream] using h2, h3⟩
    | error m c =>
      right
      refine ⟨Or.inl (by simp [consumeUpstream]), [], m, c, ?_, rfl⟩
      cases b <;> simp [consumeUpstream, stepsEvents]

@[simp] lemma stepsEvents_nil : stepsEvents [] = [] := rfl

@[simp] lemma stepsEvents_cons_ev (e : OEvent) (l : List Step) :
    stepsEvents (Step.ev e :: l) = e :: stepsEvents l := by
  simp [stepsEvents, List.filterMap_cons]

@[simp] lemma stepsEvents_cons_eff (f : Effect) (l : List Step) :
    stepsEvents (Step.eff f :: l) = stepsEvents l := by
  simp [stepsEvents, List.filterMap_cons]

@[simp] lemma stepsEffects_nil : stepsEffects [] = [] := rfl

@[simp] lemma stepsEffects_cons_ev (e : OEvent) (l : List Step) :
    stepsEffects (Step.ev e :: l) = stepsEffects l := by
  simp [stepsEffects, List.filterMap_cons]

@[simp] lemma stepsEffects_cons_eff (f : Effect) (l : List Step) :
    stepsEffects (Step.eff f :: l) = f :: stepsEffects l := by
  simp [stepsEffects, List.filterMap_cons]

@[simp] lemma settlements_nil : settlements [] = [] := rfl

@[simp] lemma settlements_cons_ev (e : OEvent) (l : List Step) :
    settlements (Step.ev e :: l) = settlements l := by
  simp [settlements, List.filterMap_cons]

@[simp] lemma settlements_cons_fin (uid rid : String) (a : BillingAction)
    (u : Option OpenAIUsage) (mo : Option String) (l : List Step) :
    settlements (Step.eff (Effect.billingFinishCall uid rid a u mo) :: l) =
      a :: settlements l := by
  simp [settlements, List.filterMap_cons]

@[simp] lemma settlements_cons_start (uid rid : String) (l : List Step) :
    settlements (Step.eff (Effect.billingStartCall uid rid) :: l) = settlements l := by
  simp [settlements, List.filterMap_cons]

@[simp] lemma settlements_cons_add (uid sid : String) (r : Role) (c : String)
    (rid : Option String) (l : List Step) :
    settlements (Step.eff (Effect.addMessageCall uid sid r c rid) :: l) = settlements l := by
  simp [settlements, List.filterMap_cons]

@[simp] lemma settlements_cons_ai (input : List (Role × String)) (prev : Option String)
    (l : List Step) :
    settlements (Step.eff (Effect.aiCall input prev) :: l) = settlements l := by
  simp [settlements, List.filterMap_cons]

lemma endsWithOneTerminal_steps (A : List Step) (t : OEvent)
    (h1 : (stepsEvents A).filter OEvent.isTerminal = [])
    (h2 : OEvent.isTerminal t = true) :
    endsWithOneTerminal (stepsEvents (A ++ [Step.ev t])) := by
  rw [stepsEvents_append]
  exact endsWithOneTerminal_append _ t h1 h2

lemma continueAfterBilling_one_terminal (p : SendParams) (env : ChatEnv) (store : Store)
    (now : Int) (pre : List Step) (b : Bool)
    (hpre : (stepsEvents pre).filter OEvent.isTerminal = []) :
    endsWithOneTerminal (stepsEvents (continueAfterBilling p env store now pre b).1) := by
  simp only [continueAfterBilling]
  rcases consumeUpstream_shape b p.userId p.requestId env.upstream env.upstreamThrows
      ⟨"", none, none, none, false⟩ with ⟨st2, h1, h2⟩ | ⟨h1, pre2, m, c, h2, h3⟩
  · rw [h1]
    simp only
    split_ifs <;>
    · apply endsWithOneTerminal_steps
      · simp [stepsEvents_append, List.filter_append, hpre, h2, OEvent.isTerminal]
      · rfl
  · rcases h1 with h1 | h1 <;>
    · rw [h1]
      simp only
      rw [stepsEvents_append, h2, ← List.append_assoc]
      apply endsWithOneTerminal_append
      · simp [stepsEvents_append, List.filter_append, hpre, h3, OEvent.isTerminal]
      · rfl

/-- C1: every invocation of sendMessageStream yields a finite event sequence
that ends with exactly one `done` or exactly one `error` event — never both,
never neither, never more than one of either. -/
theorem sendMessageStream_one_terminal (p : SendParams) (env : ChatEnv)
    (store : Store) (now : Int) :
    endsWithOneTerminal (stepsEvents (sendMessageStream p env store now).1) := by
  unfold sendMessageStream
  have hs1 : (stepsEvents
      [Step.ev (OEvent.status "Проверяем баланс..." 5),
       Step.eff (Effect.billingStartCall p.userId p.requestId)]).filter OEvent.isTerminal
      = [] := by simp [OEvent.isTerminal]
  cases hb : env.billing with
  | error e =>
    cases hd : env.devMode with
    | true =>
      dsimp only
      exact continueAfterBilling_one_terminal p env store now
        [Step.ev (OEvent.status "Проверяем баланс..." 5),
         Step.eff (Effect.billingStartCall p.userId p.requestId)] false hs1
    | false =>
      dsimp only
      rw [if_neg (by simp)]
      exact endsWithOneTerminal_steps
        [Step.ev (OEvent.status "Проверяем баланс..." 5),
         Step.eff (Effect.billingStartCall p.userId p.requestId)]
        (OEvent.error "Ошибка проверки баланса. Попробуйте позже." "BILLING_ERROR") hs1 rfl
  | ok r =>
    cases ha : r.allowed with
    | true =>
      dsimp only
      rw [ha]
      rw [if_pos rfl]
      exact continueAfterBilling_one_terminal p env store now
        [Step.ev (OEvent.status "Проверяем баланс..." 5),
         Step.eff (Effect.billingStartCall p.userId p.requestId)] true hs1
    | false =>
      dsimp only
      rw [ha]
      rw [if_neg (by simp)]
      by_cases hr : r.reason = some "balance_non_positive" ∨
          r.reason = some "balance_below_threshold"
      · rw [if_pos hr]
        exact endsWithOneTerminal_steps
          [Step.ev (OEvent.status "Проверяем баланс..." 5),
           Step.eff (Effect.billingStartCall p.userId p.requestId)]
          (OEvent.error "Недостаточно средств на балансе. Пополните баланс для продолжения."
            "INSUFFICIENT_BALANCE") hs1 rfl
      · rw [if_neg hr]
        exact endsWithOneTerminal_steps
          [Step.ev (OEvent.status "Проверяем баланс..." 5),
           Step.eff (Effect.billingStartCall p.userId p.requestId)]
          (OEvent.error ("Операция отклонена: " ++ reasonText r.reason) "BILLING_DENIED") hs1 rfl

lemma consumeUpstream_settlements (uid rid : String) (evs : List UEvent) (throws : Bool)
    (st : GenState) :
    ((∃ st2, (consumeUpstream true uid rid evs throws st).2 = LoopExit.completed st2 ∧
        settlements (consumeUpstream true uid rid evs throws st).1 = [] ∧
        expectedSettlements evs throws (if st.aiSucceeded then some st.finalUsage else none) =
          postSettle st2) ∨
     (settlements (consumeUpstream true uid rid evs throws st).1 = [BillingAction.rollback] ∧
        expectedSettlements evs throws (if st.aiSucceeded then some st.finalUsage else none) =
          [BillingAction.rollback] ∧
        ((consumeUpstream true uid rid evs throws st).2 = LoopExit.errored ∨
         (consumeUpstream true uid rid evs throws st).2 = LoopExit.thrown))) := by
  induction evs generalizing st with
  | nil =>
    cases hth : throws with
    | false =>
      left
      refine ⟨st, by simp [consumeUpstream], by simp [consumeUpstream], ?_⟩
      unfold expectedSettlements postSettle
      cases hai : st.aiSucceeded with
      | false => simp [hai]
      | true =>
        cases hu : st.finalUsage with
        | none => simp [hai, hu]
        | some u2 => simp [hai, hu]
    | true =>
      right
      refine ⟨by simp [consumeUpstream], ?_, Or.inr (by simp [consumeUpstream])⟩
      unfold expectedSettlements
      simp
  | cons hd tl ih =>
    cases hd with
    | text_delta d =>
      rcases ih st with ⟨st2, h1, h2, h3⟩ | ⟨h1, h2, h3⟩
      · left
        exact ⟨st2, by simpa [consumeUpstream] using h1,
          by simpa [consumeUpstream] using h2, by simpa [expectedSettlements] using h3⟩
      · right
        refine ⟨by simpa [consumeUpstream] using h1,
          by simpa [expectedSettlements] using h2, ?_⟩
        rcases h3 with h3 | h3
        · exact Or.inl (by simpa [consumeUpstream] using h3)
        · exact Or.inr (by simpa [consumeUpstream] using h3)
    | status s p =>
      rcases ih st with ⟨st2, h1, h2, h3⟩ | ⟨h1, h2, h3⟩
      · left
        exact ⟨st2, by simpa [consumeUpstream] using h1,
          by simpa [consumeUpstream] using h2, by simpa [expectedSettlements] using h3⟩
      · right
        refine ⟨by simpa [consumeUpstream] using h1,
          by simpa [expectedSettlements] using h2, ?_⟩
        rcases h3 with h3 | h3
        · exact Or.inl (by simpa [consumeUpstream] using h3)
        · exact Or.inr (by simpa [consumeUpstream] using h3)
    | done c u mo rid2 =>
      rcases ih ⟨c, u, some mo, rid2, true⟩ with ⟨st2, h1, h2, h3⟩ | ⟨h1, h2, h3⟩
      · left
        refine ⟨st2, by simpa [consumeUpstream] using h1,
          by simpa [consumeUpstream] using h2, ?_⟩
        simpa [expectedSettlements] using h3
      · right
        refine ⟨by simpa [consumeUpstream] using h1, ?_, ?_⟩
        · simpa [expectedSettlements] using h2
        · rcases h3 with h3 | h3
          · exact Or.inl (by simpa [consumeUpstream] using h3)
          · exact Or.inr (by simpa [consumeUpstream] using h3)
    | error m c =>
      right
      refine ⟨by simp [consumeUpstream], by simp [expectedSettlements],
        Or.inl (by simp [consumeUpstream])⟩

/-- C2 (amended): for a pre-authorized invocation, the settlement calls are
exactly `expectedSettlements`: one rollback on an upstream error event, a
generator exception, or a stream that ended without a `done`; one commit when
a `done` with usage counters was captured; and — contrary to the claim — no
settlement at all when generation succeeded but the `done` carried no usage. -/
theorem settlements_of_run (p : SendParams) (env : ChatEnv) (store : Store) (now : Int)
    (r : BillingStartResponse) (hb : env.billing = Except.ok r) (ha : r.allowed = true) :
    settlements (sendMessageStream p env store now).1 =
      expectedSettlements env.upstream env.upstreamThrows none := by
  unfold sendMessageStream
  rw [hb]
  dsimp only
  rw [ha, if_pos rfl]
  simp only [continueAfterBilling]
  have hexp : (none : Option (Option OpenAIUsage)) =
      (if (GenState.mk "" none none none false).aiSucceeded
       then some (GenState.mk "" none none none false).finalUsage else none) := by simp
  rcases consumeUpstream_settlements p.userId p.requestId env.upstream env.upstreamThrows
      ⟨"", none, none, none, false⟩ with ⟨st2, h1, h2, h3⟩ | ⟨h1, h2, h3⟩
  · rw [h1]
    dsimp only
    rw [hexp, h3]
    unfold postSettle
    split_ifs with hc1 hc2 hc3 hc4 hc5 <;>
      simp_all [settlements_append, List.filterMap_append, h2]
  · rcases h3 with h3 | h3 <;>
    · rw [h3]
      dsimp only
      rw [hexp, h2]
      simp [settlements_append, h1]

/-- C2 counterexample: billing pre-authorization succeeds and generation
succeeds, but the upstream `done` carries no usage counters — the code then
calls no settlement at all (neither commit nor rollback), refuting "billingFinish
is called exactly once ... with action rollback in every other case". -/
theorem settlements_counterexample :
    settlements (sendMessageStream
      { sessionId := "s", userId := "u", message := "привет", requestId := "r",
        shellId := none, originUrl := none, context := none }
      { billing := Except.ok { allowed := true, reason := none, balance := 10 },
        devMode := false,
        upstream := [UEvent.done "ответ" none "gpt-4o" none],
        upstreamThrows := false }
      (fun _ => none) 0).1 = [] ∧
    ¬ (settlements (sendMessageStream
      { sessionId := "s", userId := "u", message := "привет", requestId := "r",
        shellId := none, originUrl := none, context := none }
      { billing := Except.ok { allowed := true, reason := none, balance := 10 },
        devMode := false,
        upstream := [UEvent.done "ответ" none "gpt-4o" none],
        upstreamThrows := false }
      (fun _ => none) 0).1).length = 1 := by
  refine ⟨by decide, by decide⟩

theorem settlements_of_run_witness :
    settlements (sendMessageStream
      { sessionId := "s", userId := "u", message := "привет", requestId := "r",
        shellId := none, originUrl := none, context := none }
      { billing := Except.ok { allowed := true, reason := none, balance := 10 },
        devMode := false,
        upstream := [UEvent.text_delta "от",
          UEvent.done "ответ" (some ⟨3, 5, none, none⟩) "gpt-4o" none],
        upstreamThrows := false }
      (fun _ => none) 0).1 =
      expectedSettlements
        [UEvent.text_delta "от",
         UEvent.done "ответ" (some ⟨3, 5, none, none⟩) "gpt-4o" none]
        false none := by
  exact settlements_of_run _ _ _ 0 _ rfl rfl

/-- C4: when pre-authorization returns `allowed: false`, the stream emits the
initial status event and then exactly one `error` event — INSUFFICIENT_BALANCE
for a balance-related reason, BILLING_DENIED otherwise — and terminates; the
only external call is the pre-authorization itself (no generation call, no
message persistence), and the store is unchanged. -/
theorem billing_denied_behavior (p : SendParams) (env : ChatEnv) (store : Store) (now : Int)
    (r : BillingStartResponse) (hb : env.billing = Except.ok r) (ha : r.allowed = false) :
    (∃ m, stepsEvents (sendMessageStream p env store now).1 =
        [OEvent.status "Проверяем баланс..." 5,
         OEvent.error m
           (if r.reason = some "balance_non_positive" ∨
               r.reason = some "balance_below_threshold"
            then "INSUFFICIENT_BALANCE" else "BILLING_DENIED")]) ∧
    stepsEffects (sendMessageStream p env store now).1 =
      [Effect.billingStartCall p.userId p.requestId] ∧
    (sendMessageStream p env store now).2 = store := by
  unfold sendMessageStream
  rw [hb]
  dsimp only
  rw [ha]
  rw [if_neg (by simp)]
  by_cases hr : r.reason = some "balance_non_positive" ∨
      r.reason = some "balance_below_threshold"
  · rw [if_pos hr]
    refine ⟨⟨"Недостаточно средств на балансе. Пополните баланс для продолжения.", ?_⟩, ?_, rfl⟩
    · rw [if_pos hr]
      simp [stepsEvents_append]
    · simp [stepsEffects_append]
  · rw [if_neg hr]
    refine ⟨⟨"Операция отклонена: " ++ reasonText r.reason, ?_⟩, ?_, rfl⟩
    · rw [if_neg hr]
      simp [stepsEvents_append]
    · simp [stepsEffects_append]

theorem billing_denied_witness :
    (∃ m, stepsEvents (sendMessageStream
        { sessionId := "s", userId := "u", message := "привет", requestId := "r",
          shellId := none, originUrl := none, context := none }
        { billing := Except.ok ⟨false, some "balance_non_positive", 0⟩,
          devMode := false, upstream := [], upstreamThrows := false }
        (fun _ => none) 0).1 =
        [OEvent.status "Проверяем баланс..." 5,
         OEvent.error m
           (if (some "balance_non_positive" : Option String) = some "balance_non_positive" ∨
               (some "balance_non_positive" : Option String) = some "balance_below_threshold"
            then "INSUFFICIENT_BALANCE" else "BILLING_DENIED")]) ∧
    stepsEffects (sendMessageStream
        { sessionId := "s", userId := "u", message := "привет", requestId := "r",
          shellId := none, originUrl := none, context := none }
        { billing := Except.ok ⟨false, some "balance_non_positive", 0⟩,
          devMode := false, upstream := [], upstreamThrows := false }
        (fun _ => none) 0).1 =
      [Effect.billingStartCall "u" "r"] ∧
    (sendMessageStream
        { sessionId := "s", userId := "u", message := "привет", requestId := "r",
          shellId := none, originUrl := none, context := none }
        { billing := Except.ok ⟨false, some "balance_non_positive", 0⟩,
          devMode := false, upstream := [], upstreamThrows := false }
        (fun _ => none) 0).2 = (fun _ => none) := by
  exact billing_denied_behavior _ _ _ 0 ⟨false, some "balance_non_positive", 0⟩ rfl rfl

lemma aiCalls_append (a b : List Step) : aiCalls (a ++ b) = aiCalls a ++ aiCalls b := by
  unfold aiCalls; rw [List.filterMap_append]

@[simp] lemma aiCalls_nil : aiCalls [] = [] := rfl

@[simp] lemma aiCalls_cons_ev (e : OEvent) (l : List Step) :
    aiCalls (Step.ev e :: l) = aiCalls l := by
  simp [aiCalls, List.filterMap_cons]

@[simp] lemma aiCalls_cons_start (uid rid : String) (l : List Step) :
    aiCalls (Step.eff (Effect.billingStartCall uid rid) :: l) = aiCalls l := by
  simp [aiCalls, List.filterMap_cons]

@[simp] lemma aiCalls_cons_fin (uid rid : String) (a : BillingAction)
    (u : Option OpenAIUsage) (mo : Option String) (l : List Step) :
    aiCalls (Step.eff (Effect.billingFinishCall uid rid a u mo) :: l) = aiCalls l := by
  simp [aiCalls, List.filterMap_cons]

@[simp] lemma aiCalls_cons_add (uid sid : String) (r : Role) (c : String)
    (rid : Option String) (l : List Step) :
    aiCalls (Step.eff (Effect.addMessageCall uid sid r c rid) :: l) = aiCalls l := by
  simp [aiCalls, List.filterMap_cons]

@[simp] lemma aiCalls_cons_ai (input : List (Role × String)) (prev : Option String)
    (l : List Step) :
    aiCalls (Step.eff (Effect.aiCall input prev) :: l) = (input, prev) :: aiCalls l := by
  simp [aiCalls, List.filterMap_cons]

lemma addMessageCalls_append (a b : List Step) :
    addMessageCalls (a ++ b) = addMessageCalls a ++ addMessageCalls b := by
  unfold addMessageCalls; rw [List.filterMap_append]

@[simp] lemma addMessageCalls_nil : addMessageCalls [] = [] := rfl

@[simp] lemma addMessageCalls_cons_ev (e : OEvent) (l : List Step) :
    addMessageCalls (Step.ev e :: l) = addMessageCalls l := by
  simp [addMessageCalls, List.filterMap_cons]

@[simp] lemma addMessageCalls_cons_start (uid rid : String) (l : List Step) :
    addMessageCalls (Step.eff (Effect.billingStartCall uid rid) :: l) = addMessageCalls l := by
  simp [addMessageCalls, List.filterMap_cons]

@[simp] lemma addMessageCalls_cons_fin (uid rid : String) (a : BillingAction)
    (u : Option OpenAIUsage) (mo : Option String) (l : List Step) :
    addMessageCalls (Step.eff (Effect.billingFinishCall uid rid a u mo) :: l) =
      addMessageCalls l := by
  simp [addMessageCalls, List.filterMap_cons]

@[simp] lemma addMessageCalls_cons_add (uid sid : String) (r : Role) (c : String)
    (rid : Option String) (l : List Step) :
    addMessageCalls (Step.eff (Effect.addMessageCall uid sid r c rid) :: l) =
      (r, c, rid) :: addMessageCalls l := by
  simp [addMessageCalls, List.filterMap_cons]

@[simp] lemma addMessageCalls_cons_ai (input : List (Role × String)) (prev : Option String)
    (l : List Step) :
    addMessageCalls (Step.eff (Effect.aiCall input prev) :: l) = addMessageCalls l := by
  simp [addMessageCalls, List.filterMap_cons]

lemma addMessageR_messages (store : Store) (uid sid : String) (r : Role) (c : String)
    (att : Option (List MessageAttachment)) (rid : Option String) (t : Int) :
    ((addMessageR store uid sid r c att rid t) (uid, sid)).map Conversation.messages =
      some ((match store (uid, sid) with
             | some c0 => c0.messages
             | none => []) ++
        [{ role := r, content := c, timestamp := t, attachments := att, responseId := rid }]) := by
  unfold addMessageR Store.set
  cases h : store (uid, sid) <;> dsimp only <;> split_ifs <;> simp_all [createConversation]

lemma getLastResponseId_addMessage_user (store : Store) (uid sid : String)
    (c : String) (t : Int) :
    getLastResponseId (addMessage store uid sid Role.user c none t) uid sid =
      getLastResponseId store uid sid := by
  have hm := addMessage_messages store uid sid Role.user c none t
  rw [Option.map_eq_some'] at hm
  obtain ⟨conv, hc, hmsg⟩ := hm
  unfold getLastResponseId
  rw [hc]
  cases h : store (uid, sid) with
  | none =>
    rw [h] at hmsg
    simp only [List.nil_append] at hmsg
    dsimp only
    rw [hmsg]
    simp
  | some c0 =>
    rw [h] at hmsg
    simp only at hmsg
    dsimp only
    rw [hmsg, List.filter_append]
    simp

lemma getLastResponseId_addMessageR_assistant (store : Store) (uid sid : String)
    (c : String) (rid : Option String) (t : Int) :
    getLastResponseId (addMessageR store uid sid Role.assistant c none rid t) uid sid = rid := by
  have hm := addMessageR_messages store uid sid Role.assistant c none rid t
  rw [Option.map_eq_some'] at hm
  obtain ⟨conv, hc, hmsg⟩ := hm
  unfold getLastResponseId
  rw [hc]
  cases h : store (uid, sid) with
  | none =>
    rw [h] at hmsg
    simp only [List.nil_append] at hmsg
    dsimp only
    rw [hmsg]
    simp
  | some c0 =>
    rw [h] at hmsg
    simp only at hmsg
    dsimp only
    rw [hmsg, List.filter_append]
    simp

lemma consumeUpstream_completed_state (b : Bool) (uid rid : String) (evs : List UEvent)
    (st : GenState) (hne : noErrorEvents evs = true) :
    (consumeUpstream b uid rid evs false st).2 = LoopExit.completed
      (match lastDone evs with
       | some x => ⟨x.1, x.2.1, some x.2.2.1, x.2.2.2, true⟩
       | none => st) ∧
    stepsEffects (consumeUpstream b uid rid evs false st).1 = [] := by
  induction evs generalizing st with
  | nil => exact ⟨by simp [consumeUpstream, lastDone], by simp [consumeUpstream]⟩
  | cons hd tl ih =>
    cases hd with
    | text_delta d =>
      have hne2 : noErrorEvents tl = true := by simpa [noErrorEvents] using hne
      obtain ⟨ih1, ih2⟩ := ih st hne2
      exact ⟨by simpa [consumeUpstream, lastDone] using ih1,
        by simpa [consumeUpstream] using ih2⟩
    | status s p =>
      have hne2 : noErrorEvents tl = true := by simpa [noErrorEvents] using hne
      obtain ⟨ih1, ih2⟩ := ih st hne2
      exact ⟨by simpa [consumeUpstream, lastDone] using ih1,
        by simpa [consumeUpstream] using ih2⟩
    | done c u mo rid2 =>
      have hne2 : noErrorEvents tl = true := by simpa [noErrorEvents] using hne
      obtain ⟨ih1, ih2⟩ := ih ⟨c, u, some mo, rid2, true⟩ hne2
      refine ⟨?_, by simpa [consumeUpstream] using ih2⟩
      rw [show consumeUpstream b uid rid (UEvent.done c u mo rid2 :: tl) false st =
        consumeUpstream b uid rid tl false ⟨c, u, some mo, rid2, true⟩ from rfl]
      rw [ih1]
      cases hld : lastDone tl with
      | none => simp [lastDone, hld]
      | some x => simp [lastDone, hld]
    | error m c => simp [noErrorEvents] at hne

lemma aiCalls_of_noEff (l : List Step) (h : stepsEffects l = []) : aiCalls l = [] := by
  induction l with
  | nil => rfl
  | cons hd tl ih =>
    cases hd with
    | ev e => simp only [aiCalls_cons_ev]; exact ih (by simpa using h)
    | eff f => simp at h

lemma addMessageCalls_of_noEff (l : List Step) (h : stepsEffects l = []) :
    addMessageCalls l = [] := by
  induction l with
  | nil => rfl
  | cons hd tl ih =>
    cases hd with
    | ev e => simp only [addMessageCalls_cons_ev]; exact ih (by simpa using h)
    | eff f => simp at h

lemma settlements_of_noEff (l : List Step) (h : stepsEffects l = []) : settlements l = [] := by
  induction l with
  | nil => rfl
  | cons hd tl ih =>
    cases hd with
    | ev e => simp only [settlements_cons_ev]; exact ih (by simpa using h)
    | eff f => simp at h

/-- C3 (amended): after persisting the user turn the orchestrator reads the
stored response identifier of the prior assistant turn and always supplies
only the new message to the upstream client together with that identifier
(it never falls back to the full accumulated history); on a successful
generation the `done` event's response identifier is persisted with the
assistant turn, so the next turn reads it back. -/
theorem resume_identifier_flow (p : SendParams) (env : ChatEnv) (store : Store) (now : Int)
    (r : BillingStartResponse) (hb : env.billing = Except.ok r) (ha : r.allowed = true)
    (hne : noErrorEvents env.upstream = true) (ht : env.upstreamThrows = false)
    (c : String) (u : Option OpenAIUsage) (mo : String) (rid : Option String)
    (hd : lastDone env.upstream = some (c, u, mo, rid)) (hc : c ≠ "") :
    (∃ fm, aiCalls (sendMessageStream p env store now).1 =
        [([(Role.user, fm)], getLastResponseId store p.userId p.sessionId)]) ∧
    getLastResponseId (sendMessageStream p env store now).2 p.userId p.sessionId = rid := by
  obtain ⟨hstate, hnoeff⟩ := consumeUpstream_completed_state true p.userId p.requestId
      env.upstream ⟨"", none, none, none, false⟩ hne
  rw [hd] at hstate
  dsimp only at hstate
  unfold sendMessageStream
  rw [hb]
  dsimp only
  rw [ha, if_pos rfl]
  simp only [continueAfterBilling]
  rw [ht, hstate]
  dsimp only
  rw [if_pos ⟨rfl, hc⟩]
  constructor
  · refine ⟨finalMessageOf p store, ?_⟩
    simp only [aiCalls_append, aiCalls_cons_ev, aiCalls_nil,
      aiCalls_cons_start, aiCalls_cons_add, aiCalls_cons_ai, aiCalls_cons_fin,
      aiCalls_of_noEff _ hnoeff]
    rw [getLastResponseId_addMessage_user]
    split_ifs <;> simp
  · exact getLastResponseId_addMessageR_assistant _ p.userId p.sessionId c rid now

/-- C3 counterexample: with no stored response identifier and an accumulated
history of 2 prior messages (3 after the user turn is persisted), the
orchestrator still supplies only the single new message to the upstream
client — refuting "when none is present it supplies the full accumulated
history" (chat.ts lines 155-158 always send just the last message). -/
theorem resume_identifier_counterexample :
    aiCalls (sendMessageStream
      { sessionId := "s", userId := "u", message := "m2", requestId := "r",
        shellId := none, originUrl := none, context := none }
      { billing := Except.ok ⟨true, none, 10⟩, devMode := false,
        upstream := [UEvent.done "" none "gpt-4o" none], upstreamThrows := false }
      (Store.set (fun _ => none) ("u", "s")
        ⟨"s", "u", "t", [⟨Role.user, "m1", 0, none, none⟩,
          ⟨Role.assistant, "a1", 0, none, none⟩], 0, 0⟩) 1).1 =
      [([(Role.user, "m2")], none)] ∧
    ((sendMessageStream
      { sessionId := "s", userId := "u", message := "m2", requestId := "r",
        shellId := none, originUrl := none, context := none }
      { billing := Except.ok ⟨true, none, 10⟩, devMode := false,
        upstream := [UEvent.done "" none "gpt-4o" none], upstreamThrows := false }
      (Store.set (fun _ => none) ("u", "s")
        ⟨"s", "u", "t", [⟨Role.user, "m1", 0, none, none⟩,
          ⟨Role.assistant, "a1", 0, none, none⟩], 0, 0⟩) 1).2 ("u", "s")).map
      (fun c => c.messages.length) = some 3 ∧
    ([([(Role.user, "m2")], (none : Option String))].map (fun x => x.1.length)) ≠ [3] := by
  refine ⟨by decide, by decide, by decide⟩

theorem resume_identifier_witness :
    ((∃ fm, aiCalls (sendMessageStream
        { sessionId := "s", userId := "u", message := "m2", requestId := "r",
          shellId := none, originUrl := none, context := none }
        { billing := Except.ok ⟨true, none, 10⟩, devMode := false,
          upstream := [UEvent.done "ответ" none "gpt-4o" (some "resp-1")],
          upstreamThrows := false }
        (Store.set (fun _ => none) ("u", "s")
          ⟨"s", "u", "t", [⟨Role.user, "m1", 0, none, none⟩,
            ⟨Role.assistant, "a1", 0, none, some "resp-0"⟩], 0, 0⟩) 1).1 =
        [([(Role.user, fm)],
          getLastResponseId
            (Store.set (fun _ => none) ("u", "s")
              ⟨"s", "u", "t", [⟨Role.user, "m1", 0, none, none⟩,
                ⟨Role.assistant, "a1", 0, none, some "resp-0"⟩], 0, 0⟩) "u" "s")]) ∧
      getLastResponseId (sendMessageStream
        { sessionId := "s", userId := "u", message := "m2", requestId := "r",
          shellId := none, originUrl := none, context := none }
        { billing := Except.ok ⟨true, none, 10⟩, devMode := false,
          upstream := [UEvent.done "ответ" none "gpt-4o" (some "resp-1")],
          upstreamThrows := false }
        (Store.set (fun _ => none) ("u", "s")
          ⟨"s", "u", "t", [⟨Role.user, "m1", 0, none, none⟩,
            ⟨Role.assistant, "a1", 0, none, some "resp-0"⟩], 0, 0⟩) 1).2 "u" "s" =
        some "resp-1") := by
  exact resume_identifier_flow _ _ _ 1 ⟨true, none, 10⟩ rfl rfl (by decide) rfl
    "ответ" none "gpt-4o" (some "resp-1") rfl (by decide)

lemma stepsThruEvent_sublist (A : List Step) (n : Nat) :
    (stepsThruEvent A n).Sublist A := by
  induction A generalizing n with
  | nil => simp [stepsThruEvent]
  | cons hd tl ih =>
    cases hd with
    | ev e =>
      cases n with
      | zero => simp [stepsThruEvent]
      | succ k => exact List.Sublist.cons₂ _ (ih k)
    | eff f => exact List.Sublist.cons₂ _ (ih n)

lemma stepsEvents_stepsThru (A : List Step) (n : Nat) :
    stepsEvents (stepsThruEvent A n) = (stepsEvents A).take (n + 1) := by
  induction A generalizing n with
  | nil => simp [stepsThruEvent]
  | cons hd tl ih =>
    cases hd with
    | ev e =>
      cases n with
      | zero => simp [stepsThruEvent]
      | succ k => simp [stepsThruEvent, ih k]
    | eff f => simp [stepsThruEvent, ih n]

lemma stepsThruEvent_append (A B : List Step) (n : Nat)
    (h : n + 1 ≤ (stepsEvents A).length) :
    stepsThruEvent (A ++ B) n = stepsThruEvent A n := by
  induction A generalizing n with
  | nil => simp at h
  | cons hd tl ih =>
    cases hd with
    | ev e =>
      cases n with
      | zero => simp [stepsThruEvent]
      | succ k =>
        have : k + 1 ≤ (stepsEvents tl).length := by
          simpa using h
        simp [stepsThruEvent, ih k this]
    | eff f =>
      have : n + 1 ≤ (stepsEvents tl).length := by simpa using h
      simp [stepsThruEvent, ih n this]

lemma disconnect_helper (S5 P B : List Step) (t : OEvent) (n : Nat)
    (hS : settlements S5 = [])
    (hA : ∀ x ∈ addMessageCalls S5, x.1 = Role.user)
    (hP : stepsEvents P = []) (hBe : stepsEvents B = [])
    (hn : n + 1 < (stepsEvents (S5 ++ P ++ B ++ [Step.ev t])).length) :
    settlements (stepsThruEvent (S5 ++ P ++ B ++ [Step.ev t]) n) = [] ∧
    ∀ x ∈ addMessageCalls (stepsThruEvent (S5 ++ P ++ B ++ [Step.ev t]) n),
      x.1 = Role.user := by
  have hlen : n + 1 ≤ (stepsEvents S5).length := by
    have hev : stepsEvents (S5 ++ P ++ B ++ [Step.ev t]) = stepsEvents S5 ++ [t] := by
      simp [stepsEvents_append, hP, hBe]
    rw [hev] at hn
    simp only [List.length_append, List.length_cons, List.length_nil] at hn
    omega
  have heq : stepsThruEvent (S5 ++ P ++ B ++ [Step.ev t]) n = stepsThruEvent S5 n := by
    rw [List.append_assoc S5 P B, List.append_assoc S5 (P ++ B) [Step.ev t]]
    exact stepsThruEvent_append S5 _ n hlen
  rw [heq]
  constructor
  · have hsub : (settlements (stepsThruEvent S5 n)).Sublist (settlements S5) :=
      List.Sublist.filterMap _ (stepsThruEvent_sublist S5 n)
    rw [hS] at hsub
    exact List.sublist_nil.mp hsub
  · intro x hx
    have hsub : (addMessageCalls (stepsThruEvent S5 n)).Sublist (addMessageCalls S5) :=
      List.Sublist.filterMap _ (stepsThruEvent_sublist S5 n)
    exact hA x (hsub.subset hx)

/-- C5 (amended): when the client disconnects after `n` relayed events and the
orchestrator would otherwise complete generation, the transport stops writing
(wire output is the first `n` events) and — because breaking the `for await`
loop terminates the generator at its suspended yield — the orchestrator does
NOT complete its lifecycle: if the disconnect is detected before the final
`done` event, the performed steps contain no settlement call and no assistant
persistence (only the user turn was stored). -/
theorem disconnect_truncates (p : SendParams) (env : ChatEnv) (store : Store) (now : Int)
    (r : BillingStartResponse) (n : Nat)
    (hb : env.billing = Except.ok r) (ha : r.allowed = true)
    (hne : noErrorEvents env.upstream = true) (ht : env.upstreamThrows = false)
    (hn : n + 1 < (stepsEvents (sendMessageStream p env store now).1).length) :
    (disconnectRun (sendMessageStream p env store now).1 n).1 =
      (stepsEvents (sendMessageStream p env store now).1).take n ∧
    stepsEvents (disconnectRun (sendMessageStream p env store now).1 n).2 =
      (stepsEvents (sendMessageStream p env store now).1).take (n + 1) ∧
    settlements (disconnectRun (sendMessageStream p env store now).1 n).2 = [] ∧
    (∀ x ∈ addMessageCalls (disconnectRun (sendMessageStream p env store now).1 n).2,
      x.1 = Role.user) := by
  refine ⟨rfl, stepsEvents_stepsThru _ n, ?_⟩
  obtain ⟨hstate, hnoeff⟩ := consumeUpstream_completed_state true p.userId p.requestId
      env.upstream ⟨"", none, none, none, false⟩ hne
  unfold sendMessageStream at hn ⊢
  rw [hb] at hn ⊢
  dsimp only at hn ⊢
  rw [ha, if_pos rfl] at hn ⊢
  simp only [continueAfterBilling] at hn ⊢
  rw [ht, hstate] at hn ⊢
  dsimp only [disconnectRun] at hn ⊢
  split_ifs at hn ⊢ with h1 h2 h3 <;>
  · refine disconnect_helper _ _ _ _ n ?_ ?_ ?_ ?_ hn
    · simp [settlements_append, settlements_of_noEff _ hnoeff]
    · simp [addMessageCalls_append, addMessageCalls_of_noEff _ hnoeff]
    · simp
    · simp

/-- C5 counterexample: the client disconnects after 2 relayed events (during
the text deltas); the transport breaks the `for await` loop, which terminates
the orchestrator generator at its suspended yield — the performed steps hold
no settlement and differ from the full lifecycle (which commits), refuting
"the orchestrator still completes its full lifecycle". -/
theorem disconnect_counterexample :
    settlements (disconnectRun (sendMessageStream
      { sessionId := "s", userId := "u", message := "привет", requestId := "r",
        shellId := none, originUrl := none, context := none }
      { billing := Except.ok ⟨true, none, 10⟩, devMode := false,
        upstream := [UEvent.text_delta "Hi",
          UEvent.done "Hi" (some ⟨1, 2, none, none⟩) "gpt-4o" none],
        upstreamThrows := false }
      (fun _ => none) 0).1 2).2 = [] ∧
    settlements (sendMessageStream
      { sessionId := "s", userId := "u", message := "привет", requestId := "r",
        shellId := none, originUrl := none, context := none }
      { billing := Except.ok ⟨true, none, 10⟩, devMode := false,
        upstream := [UEvent.text_delta "Hi",
          UEvent.done "Hi" (some ⟨1, 2, none, none⟩) "gpt-4o" none],
        upstreamThrows := false }
      (fun _ => none) 0).1 = [BillingAction.commit] ∧
    stepsEffects (disconnectRun (sendMessageStream
      { sessionId := "s", userId := "u", message := "привет", requestId := "r",
        shellId := none, originUrl := none, context := none }
      { billing := Except.ok ⟨true, none, 10⟩, devMode := false,
        upstream := [UEvent.text_delta "Hi",
          UEvent.done "Hi" (some ⟨1, 2, none, none⟩) "gpt-4o" none],
        upstreamThrows := false }
      (fun _ => none) 0).1 2).2 ≠
      stepsEffects (sendMessageStream
      { sessionId := "s", userId := "u", message := "привет", requestId := "r",
        shellId := none, originUrl := none, context := none }
      { billing := Except.ok ⟨true, none, 10⟩, devMode := false,
        upstream := [UEvent.text_delta "Hi",
          UEvent.done "Hi" (some ⟨1, 2, none, none⟩) "gpt-4o" none],
        upstreamThrows := false }
      (fun _ => none) 0).1 := by
  refine ⟨by decide, by decide, by decide⟩

theorem disconnect_truncates_witness :
    (disconnectRun (sendMessageStream
      { sessionId := "s", userId := "u", message := "привет", requestId := "r",
        shellId := none, originUrl := none, context := none }
      { billing := Except.ok ⟨true, none, 10⟩, devMode := false,
        upstream := [UEvent.text_delta "Hi",
          UEvent.done "Hi" (some ⟨1, 2, none, none⟩) "gpt-4o" none],
        upstreamThrows := false }
      (fun _ => none) 0).1 2).1 =
      (stepsEvents (sendMessageStream
      { sessionId := "s", userId := "u", message := "привет", requestId := "r",
        shellId := none, originUrl := none, context := none }
      { billing := Except.ok ⟨true, none, 10⟩, devMode := false,
        upstream := [UEvent.text_delta "Hi",
          UEvent.done "Hi" (some ⟨1, 2, none, none⟩) "gpt-4o" none],
        upstreamThrows := false }
      (fun _ => none) 0).1).take 2 ∧
    stepsEvents (disconnectRun (sendMessageStream
      { sessionId := "s", userId := "u", message := "привет", requestId := "r",
        shellId := none, originUrl := none, context := none }
      { billing := Except.ok ⟨true, none, 10⟩, devMode := false,
        upstream := [UEvent.text_delta "Hi",
          UEvent.done "Hi" (some ⟨1, 2, none, none⟩) "gpt-4o" none],
        upstreamThrows := false }
      (fun _ => none) 0).1 2).2 =
      (stepsEvents (sendMessageStream
      { sessionId := "s", userId := "u", message := "привет", requestId := "r",
        shellId := none, originUrl := none, context := none }
      { billing := Except.ok ⟨true, none, 10⟩, devMode := false,
        upstream := [UEvent.text_delta "Hi",
          UEvent.done "Hi" (some ⟨1, 2, none, none⟩) "gpt-4o" none],
        upstreamThrows := false }
      (fun _ => none) 0).1).take (2 + 1) ∧
    settlements (disconnectRun (sendMessageStream
      { sessionId := "s", userId := "u", message := "привет", requestId := "r",
        shellId := none, originUrl := none, context := none }
      { billing := Except.ok ⟨true, none, 10⟩, devMode := false,
        upstream := [UEvent.text_delta "Hi",
          UEvent.done "Hi" (some ⟨1, 2, none, none⟩) "gpt-4o" none],
        upstreamThrows := false }
      (fun _ => none) 0).1 2).2 = [] ∧
    (∀ x ∈ addMessageCalls (disconnectRun (sendMessageStream
      { sessionId := "s", userId := "u", message := "привет", requestId := "r",
        shellId := none, originUrl := none, context := none }
      { billing := Except.ok ⟨true, none, 10⟩, devMode := false,
        upstream := [UEvent.text_delta "Hi",
          UEvent.done "Hi" (some ⟨1, 2, none, none⟩) "gpt-4o" none],
        upstreamThrows := false }
      (fun _ => none) 0).1 2).2,
      x.1 = Role.user) := by
  exact disconnect_truncates _ _ _ 0 ⟨true, none, 10⟩ 2 rfl rfl (by decide) rfl (by decide)

/-- C6 (amended): a streaming call that is rate-limited (HTTP 429) on the
first attempt and succeeds on the second yields the same events — including
the same final `done` payload — as an immediately successful call, except for
exactly TWO extra `status` events in between: the retry notice and the
repeated request-sent status of the second loop iteration. -/
theorem retry429_payload (cfgModel : String) (ra : Option Nat) (L : List SSELine) :
    ∃ body : List UEvent,
      (streamChatCompletion cfgModel (fun _ => AttemptOutcome.success L)).1 =
        [UEvent.status "Подключение к AI модели..." 10,
         UEvent.status "Отправлен запрос к модели..." 20] ++ body ∧
      (streamChatCompletion cfgModel (fun n =>
          if n = 0 then AttemptOutcome.httpError 429 ra else AttemptOutcome.success L)).1 =
        [UEvent.status "Подключение к AI модели..." 10,
         UEvent.status "Отправлен запрос к модели..." 20,
         retryStatus429 (retryDelay429 ra 0),
         UEvent.status "Отправлен запрос к модели..." 20] ++ body := by
  refine ⟨(match processLines L "" none none with
    | (evs, some x) => evs ++ [UEvent.done x.1 x.2.1 (x.2.2.getD cfgModel) none]
    | (evs, none) => evs), ?_, ?_⟩ <;>
  · rcases h : processLines L "" none none with ⟨evs, _ | x⟩ <;>
      simp [streamChatCompletion, scLoop, h, MAX_RETRIES_429]

/-- C6 counterexample: with a concrete successful SSE body, the 429-then-
success run produces two more events than the immediate-success run, not one —
refuting "differs from it by exactly one extra status event". -/
theorem retry429_counterexample :
    ((streamChatCompletion "gpt-4o" (fun n =>
        if n = 0 then AttemptOutcome.httpError 429 none
        else AttemptOutcome.success [SSELine.delta "Привет",
          SSELine.completed (some ⟨1, 2, none, none⟩) (some "gpt-4o")])).1).length =
      ((streamChatCompletion "gpt-4o" (fun _ =>
        AttemptOutcome.success [SSELine.delta "Привет",
          SSELine.completed (some ⟨1, 2, none, none⟩) (some "gpt-4o")])).1).length + 2 ∧
    ((streamChatCompletion "gpt-4o" (fun n =>
        if n = 0 then AttemptOutcome.httpError 429 none
        else AttemptOutcome.success [SSELine.delta "Привет",
          SSELine.completed (some ⟨1, 2, none, none⟩) (some "gpt-4o")])).1).length ≠
      ((streamChatCompletion "gpt-4o" (fun _ =>
        AttemptOutcome.success [SSELine.delta "Привет",
          SSELine.completed (some ⟨1, 2, none, none⟩) (some "gpt-4o")])).1).length + 1 := by
  refine ⟨by decide, by decide⟩
